import Mathlib

/-!
Shallow embedding of the blastaden_solis Solis-API pipeline.

The repository contains two character-identical copies of the signing and
aggregation code: `src/components/utils.js` (embedded below in namespace
`Utils`) and `src/pages/index.js` (embedded in namespace `IndexPage`).
JavaScript numbers are modelled as exact rationals, optional fields of JS objects as `Option`, thrown exceptions as `Except.error`, and the two
network calls as an explicit environment (`SolisEnv`) mapping each request
to its outcome.  The hashing primitives (MD5, HMAC-SHA1, both
base64-encoded) are passed in as function parameters, so that theorems
about the signer quantify over them.
-/

namespace Blastaden

/-- Model of JavaScript `Math.round`: nearest integer, ties toward plus
infinity, i.e. the floor of `q + 1/2` (written with `Rat.floor` so that it
evaluates by kernel reduction). -/
def jsRound (q : ℚ) : ℤ := (q + 1/2).floor

/-- Model of the rounding expression `Math.round(e * 10) / 10` used by the
aggregator: round to one decimal place. -/
def round1 (q : ℚ) : ℚ := (jsRound (q * 10) : ℚ) / 10

/-- A station record from `stationListResponse.data.page.records`; the
aggregation reads only its `id`. -/
structure Station where
  id : ℕ
deriving DecidableEq

/-- One entry of the `data` array of a `stationMonth` response.  The `energy`
field may be absent or `null` in JS; both are modelled as `none` (both make
`dailyData[i]?.energy || 0` evaluate to `0`). -/
structure DayRecord where
  energy : Option ℚ
deriving DecidableEq

/-- Outcomes of the two Solis API calls made by the aggregation, as seen by
one run of `fetchDataFromSolis`: the station-list call, and one
station-month call per station id (the month argument is the fixed current
month for the whole run, so it is not a parameter here).  `Except.error`
models a thrown exception (e.g. a non-2xx HTTP response). -/
structure SolisEnv where
  stationList : Except String (List Station)
  stationMonth : ℕ → Except String (List DayRecord)

/-- The two object literals `fetchDataFromSolis` can return: the success
object `{dailyTotals, monthlyTotal, monthName}` (note: no `error`
property) and the failure object `{error}` (no totals). -/
inductive FetchResult
  | ok (dailyTotals : List ℚ) (monthlyTotal : ℚ) (monthName : String)
  | err (error : String)
deriving DecidableEq

/-- The property names present on each returned object literal, read off
the two `return` statements of the source. -/
def FetchResult.fieldNames : FetchResult → List String
  | .ok _ _ _ => ["dailyTotals", "monthlyTotal", "monthName"]
  | .err _ => ["error"]

/-- An HTTP response as consumed by `sendSolisApiRequest`: status code,
body as text, and the body parsed as JSON (abstracted to a payload type,
since only non-2xx handling and the pass-through of the parsed body are at
issue). -/
structure HttpResponse (α : Type) where
  status : ℕ
  bodyText : String
  jsonBody : α

/-- Model of `response.ok` from the fetch standard: status in 200..299. -/
def responseOk (status : ℕ) : Bool := 200 ≤ status && status ≤ 299

/-- The headers object built inside `sendSolisApiRequest`. -/
structure SolisHeaders where
  contentType : String
  authorization : String
  contentMd5 : String
  date : String
  connection : String
deriving DecidableEq

namespace Utils

/-- Embeds `getContentMd5` from `src/components/utils.js`, with the
MD5-then-base64 primitive (`createHash("md5")...digest("base64")`) passed
in as `md5b64`. -/
def getContentMd5 (md5b64 : String → String) (body : String) : String :=
  md5b64 body

/-- Embeds `getSignature` from `src/components/utils.js`: the canonical
string is built from method, content MD5, content type, date and path
joined by newlines, then signed; `hmacSha1b64` is the
`createHmac("sha1", secret)...digest("base64")` primitive, taking the
secret first and the message second. -/
def getSignature (hmacSha1b64 : String → String → String)
    (contentMd5 date path secret : String) : String :=
  hmacSha1b64 secret
    ("POST\n" ++ contentMd5 ++ "\napplication/json\n" ++ date ++ "\n" ++ path)

/-- Embeds the header construction of `sendSolisApiRequest` in
`src/components/utils.js`.  `date` stands for the value of `getGMTDate()`
(the clock reading), `apiSecret` and `apiKey` for the environment
variables. -/
def buildHeaders (md5b64 : String → String) (hmacSha1b64 : String → String → String)
    (path bodyString date apiSecret apiKey : String) : SolisHeaders :=
  let contentMd5 := getContentMd5 md5b64 bodyString
  let signature := getSignature hmacSha1b64 contentMd5 date path apiSecret
  { contentType := "application/json;charset=UTF-8"
    authorization := "API " ++ apiKey ++ ":" ++ signature
    contentMd5 := contentMd5
    date := date
    connection := "keep-alive" }

/-- Embeds the response handling of `sendSolisApiRequest` in
`src/components/utils.js`: on `!response.ok` read the body as text and
throw an error whose message interpolates the status and the body;
otherwise return the parsed JSON body. -/
def handleResponse {α : Type} (r : HttpResponse α) : Except String α :=
  if responseOk r.status then Except.ok r.jsonBody
  else Except.error ("HTTP " ++ Nat.repr r.status ++ ": " ++ r.bodyText)

/-- Embeds the expression `dailyData[i]?.energy || 0` in
`src/components/utils.js`: an out-of-range index or a missing (or null)
`energy` field yields 0; a numeric energy passes through (`0 || 0` is 0,
so `some e` yielding `e` is exact for rationals). -/
def dayEnergy (dailyData : List DayRecord) (i : ℕ) : ℚ :=
  match dailyData[i]? with
  | none => 0
  | some r =>
    match r.energy with
    | none => 0
    | some e => e

/-- Embeds one iteration of the station loop in `fetchDataFromSolis`
(`src/components/utils.js`): the `try` block adds
`dailyData[i]?.energy || 0` into `dayTotals[i]` for every
`i < daysInMonth` (`dayTotals` always has length `daysInMonth`, so the
in-place update is `mapIdx`); the `catch` block logs and leaves the
accumulator unchanged. -/
def stationStep (dayTotals : List ℚ) (resp : Except String (List DayRecord)) :
    List ℚ :=
  match resp with
  | .error _ => dayTotals
  | .ok dailyData => dayTotals.mapIdx (fun i t => t + dayEnergy dailyData i)

/-- Embeds the accumulator of `fetchDataFromSolis`
(`src/components/utils.js`): `Array(daysInMonth).fill(0)` followed by the
sequential `for (const station of ...)` loop, each station contributing
through its `stationMonth` response. -/
def accumulate (env : SolisEnv) (daysInMonth : ℕ) (stations : List Station) :
    List ℚ :=
  stations.foldl
    (fun dayTotals st => stationStep dayTotals (env.stationMonth st.id))
    (List.replicate daysInMonth 0)

/-- Embeds `fetchDataFromSolis` from `src/components/utils.js`.
`daysInMonth` and `monthName` stand for the values computed from
`new Date()` (the clock reading).  The only operation inside the outer
`try` that can throw is the station-list request (per-station failures are
caught by the inner `try`), so the outer `catch` fires exactly when
`env.stationList` is an error and returns `{error: "Failed to fetch
data"}`.  On success the code maps `Math.round(e * 10) / 10` over the
accumulator, computes the monthly total by `reduce((acc, val) => acc +
val, 0)` then rounding, and returns the three-field success object. -/
def fetchDataFromSolis (env : SolisEnv) (daysInMonth : ℕ) (monthName : String) :
    FetchResult :=
  match env.stationList with
  | .error _ => .err ("Failed to fetch data")
  | .ok stations =>
    let dayTotals := accumulate env daysInMonth stations
    .ok (dayTotals.map round1)
      (round1 (dayTotals.foldl (fun acc val => acc + val) 0)) monthName

end Utils

namespace IndexPage

/-- Embeds `getContentMd5` from `src/pages/index.js` (the copy of the module local to the page). -/
def getContentMd5 (md5b64 : String → String) (body : String) : String :=
  md5b64 body

/-- Embeds `getSignature` from `src/pages/index.js`. -/
def getSignature (hmacSha1b64 : String → String → String)
    (contentMd5 date path secret : String) : String :=
  hmacSha1b64 secret
    ("POST\n" ++ contentMd5 ++ "\napplication/json\n" ++ date ++ "\n" ++ path)

/-- Embeds the header construction of `sendSolisApiRequest` in
`src/pages/index.js`. -/
def buildHeaders (md5b64 : String → String) (hmacSha1b64 : String → String → String)
    (path bodyString date apiSecret apiKey : String) : SolisHeaders :=
  let contentMd5 := getContentMd5 md5b64 bodyString
  let signature := getSignature hmacSha1b64 contentMd5 date path apiSecret
  { contentType := "application/json;charset=UTF-8"
    authorization := "API " ++ apiKey ++ ":" ++ signature
    contentMd5 := contentMd5
    date := date
    connection := "keep-alive" }

/-- Embeds the response handling of `sendSolisApiRequest` in
`src/pages/index.js`. -/
def handleResponse {α : Type} (r : HttpResponse α) : Except String α :=
  if responseOk r.status then Except.ok r.jsonBody
  else Except.error ("HTTP " ++ Nat.repr r.status ++ ": " ++ r.bodyText)

/-- Embeds the expression `dailyData[i]?.energy || 0` in
`src/pages/index.js`. -/
def dayEnergy (dailyData : List DayRecord) (i : ℕ) : ℚ :=
  match dailyData[i]? with
  | none => 0
  | some r =>
    match r.energy with
    | none => 0
    | some e => e

/-- Embeds one iteration of the station loop of `fetchData` in
`src/pages/index.js`. -/
def stationStep (dayTotals : List ℚ) (resp : Except String (List DayRecord)) :
    List ℚ :=
  match resp with
  | .error _ => dayTotals
  | .ok dailyData => dayTotals.mapIdx (fun i t => t + dayEnergy dailyData i)

/-- Embeds the accumulator of `fetchData` in `src/pages/index.js`. -/
def accumulate (env : SolisEnv) (daysInMonth : ℕ) (stations : List Station) :
    List ℚ :=
  stations.foldl
    (fun dayTotals st => stationStep dayTotals (env.stationMonth st.id))
    (List.replicate daysInMonth 0)

/-- Embeds `fetchData` from `src/pages/index.js`, the page-local duplicate
of `fetchDataFromSolis`. -/
def fetchData (env : SolisEnv) (daysInMonth : ℕ) (monthName : String) :
    FetchResult :=
  match env.stationList with
  | .error _ => .err ("Failed to fetch data")
  | .ok stations =>
    let dayTotals := accumulate env daysInMonth stations
    .ok (dayTotals.map round1)
      (round1 (dayTotals.foldl (fun acc val => acc + val) 0)) monthName

end IndexPage

/-- Concrete environment realising the end-to-end example of the spec:
two stations with three-day energy series `[1.05, 2.0, null]` and
`[0.95, 0, 3.33]`. -/
def envTwoStations : SolisEnv where
  stationList := Except.ok [⟨1⟩, ⟨2⟩]
  stationMonth := fun i =>
    if i = 1 then Except.ok [⟨some (21/20)⟩, ⟨some 2⟩, ⟨none⟩]
    else if i = 2 then Except.ok [⟨some (19/20)⟩, ⟨some 0⟩, ⟨some (333/100)⟩]
    else Except.error ("HTTP 404: unknown station")

/-- Concrete environment in which station 1 answers normally and the station-month call of station 2 fails with an HTTP error. -/
def envOneBad : SolisEnv where
  stationList := Except.ok [⟨1⟩, ⟨2⟩]
  stationMonth := fun i =>
    if i = 1 then Except.ok [⟨some (21/20)⟩, ⟨some 2⟩, ⟨none⟩]
    else Except.error ("HTTP 500: upstream error")

/-- Concrete environment in which the station-list call itself fails. -/
def envListDown : SolisEnv where
  stationList := Except.error ("HTTP 502: bad gateway")
  stationMonth := fun _ => Except.error ("HTTP 502: bad gateway")


lemma jsRound_eq_floor (q : ℚ) : jsRound q = ⌊q + 1/2⌋ := by
  rw [jsRound, Rat.floor_def']
  exact Rat.floor_def.symm

lemma round1_eq (q : ℚ) : round1 q = ((⌊q * 10 + 1/2⌋ : ℤ) : ℚ) / 10 := by
  rw [round1, jsRound_eq_floor]

lemma length_stationStep (dt : List ℚ) (r : Except String (List DayRecord)) :
    (Utils.stationStep dt r).length = dt.length := by
  cases r with
  | error e => rfl
  | ok d => simp [Utils.stationStep]

lemma length_accumulate (env : SolisEnv) (d : ℕ) (s : List Station) :
    (Utils.accumulate env d s).length = d := by
  have h : ∀ (t : List Station) (dt : List ℚ),
      (t.foldl (fun a st => Utils.stationStep a (env.stationMonth st.id)) dt).length =
        dt.length := by
    intro t
    induction t with
    | nil => intro dt; rfl
    | cons a u ih =>
      intro dt
      rw [List.foldl_cons, ih]
      exact length_stationStep dt (env.stationMonth a.id)
  rw [Utils.accumulate, h]
  exact List.length_replicate d 0

lemma getElem?_mapIdx {α β : Type} (l : List α) (f : ℕ → α → β) (i : ℕ) :
    (l.mapIdx f)[i]? = (l[i]?).map (f i) := by
  by_cases h : i < l.length
  · have h2 : i < (l.mapIdx f).length := by
      rw [List.length_mapIdx]; exact h
    rw [List.getElem?_eq_getElem h, List.getElem?_eq_getElem h2]
    simp [List.getElem_mapIdx]
  · push_neg at h
    rw [List.getElem?_eq_none h, List.getElem?_eq_none (by rw [List.length_mapIdx]; exact h)]
    rfl

lemma getElem?_stationStep (dt : List ℚ) (dailyData : List DayRecord) (i : ℕ) :
    (Utils.stationStep dt (Except.ok dailyData))[i]? =
      (dt[i]?).map (fun t => t + Utils.dayEnergy dailyData i) := by
  rw [Utils.stationStep]
  exact getElem?_mapIdx dt _ i

lemma fetch_ok (env : SolisEnv) (d : ℕ) (m : String) (s : List Station)
    (h : env.stationList = Except.ok s) :
    Utils.fetchDataFromSolis env d m =
      FetchResult.ok ((Utils.accumulate env d s).map round1)
        (round1 (Utils.accumulate env d s).sum) m := by
  unfold Utils.fetchDataFromSolis
  rw [h, List.sum_eq_foldl]

lemma fetch_err (env : SolisEnv) (d : ℕ) (m : String) (e : String)
    (h : env.stationList = Except.error e) :
    Utils.fetchDataFromSolis env d m = FetchResult.err ("Failed to fetch data") := by
  unfold Utils.fetchDataFromSolis
  rw [h]

lemma stationStep_comm (dt : List ℚ) (r1 r2 : Except String (List DayRecord)) :
    Utils.stationStep (Utils.stationStep dt r1) r2 =
      Utils.stationStep (Utils.stationStep dt r2) r1 := by
  cases r1 with
  | error e1 => cases r2 <;> rfl
  | ok d1 =>
    cases r2 with
    | error e2 => rfl
    | ok d2 =>
      apply List.ext_getElem?
      intro n
      rw [getElem?_stationStep, getElem?_stationStep, getElem?_stationStep,
        getElem?_stationStep, Option.map_map, Option.map_map]
      cases dt[n]? with
      | none => rfl
      | some t =>
        show some (t + Utils.dayEnergy d1 n + Utils.dayEnergy d2 n) =
          some (t + Utils.dayEnergy d2 n + Utils.dayEnergy d1 n)
        rw [add_right_comm]

lemma accumulate_perm (env : SolisEnv) (d : ℕ) {s1 s2 : List Station}
    (hp : s1.Perm s2) :
    Utils.accumulate env d s1 = Utils.accumulate env d s2 :=
  hp.foldl_eq' (fun x _ y _ z => stationStep_comm z (env.stationMonth x.id) (env.stationMonth y.id))
    (List.replicate d 0)

lemma accumulate_middle_error (env : SolisEnv) (d : ℕ) (pre post : List Station)
    (st : Station) (e : String) (h : env.stationMonth st.id = Except.error e) :
    Utils.accumulate env d (pre ++ st :: post) = Utils.accumulate env d (pre ++ post) := by
  rw [Utils.accumulate, Utils.accumulate, List.foldl_append, List.foldl_append, List.foldl_cons]
  congr 1
  rw [h]
  rfl

/-- C1: whenever the station-list call succeeds, the aggregation returns
each dailyTotals entry as the corresponding unrounded accumulator value
rounded to one decimal place, and monthlyTotal as the sum of the unrounded
accumulator rounded to one decimal place; and sum-then-round genuinely
differs from summing the individually rounded entries, witnessed by an
accumulator of three days of 0.04. -/
theorem monthlyTotal_sum_then_round :
    (∀ (env : SolisEnv) (d : ℕ) (m : String) (stations : List Station),
      env.stationList = Except.ok stations →
      Utils.fetchDataFromSolis env d m =
        FetchResult.ok ((Utils.accumulate env d stations).map round1)
          (round1 (Utils.accumulate env d stations).sum) m) ∧
    round1 ([(4:ℚ)/100, 4/100, 4/100].sum) ≠ ([(4:ℚ)/100, 4/100, 4/100].map round1).sum := by
  constructor
  · intro env d m s h
    exact fetch_ok env d m s h
  · simp only [List.map_cons, List.map_nil, List.sum_cons, List.sum_nil, round1_eq]
    norm_num

/-- Witness for C1 at the concrete two-station environment of the end-to-end example. -/
theorem monthlyTotal_sum_then_round_witness :
    envTwoStations.stationList = Except.ok [⟨1⟩, ⟨2⟩] ∧
    Utils.fetchDataFromSolis envTwoStations 3 ("mars") =
      FetchResult.ok ((Utils.accumulate envTwoStations 3 [⟨1⟩, ⟨2⟩]).map round1)
        (round1 (Utils.accumulate envTwoStations 3 [⟨1⟩, ⟨2⟩]).sum) "mars" :=
  ⟨rfl, monthlyTotal_sum_then_round.1 envTwoStations 3 ("mars") [⟨1⟩, ⟨2⟩] rfl⟩

/-- C2: the signature is the HMAC-SHA1-base64 primitive keyed by the
secret applied to the exact five-part canonical string, method POST first,
then the base64 MD5 of the body, the content type (written
application/json in the canonical string, while the header sent declares
application/json;charset=UTF-8), the date header and the path, joined by
newline characters; the Authorization header carries that signature. -/
theorem signature_five_part_canonical_string :
    ∀ (md5b64 : String → String) (hmacSha1b64 : String → String → String)
      (path body date secret key : String),
      Utils.getSignature hmacSha1b64 (Utils.getContentMd5 md5b64 body) date path secret =
        hmacSha1b64 secret
          ("POST" ++ "\n" ++ md5b64 body ++ "\n" ++ "application/json" ++ "\n" ++
            date ++ "\n" ++ path) ∧
      (Utils.buildHeaders md5b64 hmacSha1b64 path body date secret key).authorization =
        "API " ++ key ++ ":" ++
          hmacSha1b64 secret
            ("POST" ++ "\n" ++ md5b64 body ++ "\n" ++ "application/json" ++ "\n" ++
              date ++ "\n" ++ path) ∧
      (Utils.buildHeaders md5b64 hmacSha1b64 path body date secret key).contentType =
        "application/json;charset=UTF-8" := by
  intro md5b64 hmacSha1b64 path body date secret key
  have hstr : "POST\n" ++ md5b64 body ++ "\napplication/json\n" ++ date ++ "\n" ++ path =
      "POST" ++ "\n" ++ md5b64 body ++ "\n" ++ "application/json" ++ "\n" ++
        date ++ "\n" ++ path := by
    simp only [String.append_assoc]
    rfl
  refine ⟨?_, ?_, rfl⟩
  · rw [Utils.getSignature, Utils.getContentMd5, hstr]
  · rw [Utils.buildHeaders]
    show ("API " ++ key ++ ":" ++
        Utils.getSignature hmacSha1b64 (Utils.getContentMd5 md5b64 body) date path secret) = _
    rw [Utils.getSignature, Utils.getContentMd5, hstr]

/-- C3: for every day count between 28 and 31, whenever the aggregation
returns a success object its dailyTotals list has length exactly
daysInMonth (index 0 holding day 1, as the accumulator collects index i of
each station response). -/
theorem dailyTotals_length_matches_daysInMonth :
    ∀ (env : SolisEnv) (d : ℕ) (m : String) (dts : List ℚ) (mt : ℚ) (mn : String),
      28 ≤ d → d ≤ 31 →
      Utils.fetchDataFromSolis env d m = FetchResult.ok dts mt mn →
      dts.length = d := by
  intro env d m dts mt mn h28 h31 h
  cases hs : env.stationList with
  | error e =>
    rw [fetch_err env d m e hs] at h
    exact absurd h (by simp)
  | ok s =>
    rw [fetch_ok env d m s hs] at h
    injection h with h1 h2 h3
    rw [← h1, List.length_map]
    exact length_accumulate env d s

/-- Witness for C3 at the concrete two-station environment with a 28-day
month. -/
theorem dailyTotals_length_witness :
    (28 ≤ 28 ∧ 28 ≤ 31 ∧
      Utils.fetchDataFromSolis envTwoStations 28 ("februari") =
        FetchResult.ok ((Utils.accumulate envTwoStations 28 [⟨1⟩, ⟨2⟩]).map round1)
          (round1 (Utils.accumulate envTwoStations 28 [⟨1⟩, ⟨2⟩]).sum) "februari") ∧
    ((Utils.accumulate envTwoStations 28 [⟨1⟩, ⟨2⟩]).map round1).length = 28 :=
  ⟨⟨by decide, by decide, fetch_ok envTwoStations 28 ("februari") [⟨1⟩, ⟨2⟩] rfl⟩,
    dailyTotals_length_matches_daysInMonth envTwoStations 28 ("februari") _ _ _
      (by decide) (by decide) (fetch_ok envTwoStations 28 ("februari") [⟨1⟩, ⟨2⟩] rfl)⟩

/-- C4: when the month call of one station fails and the station-list call
succeeded, the aggregation still returns the success object built from the
contributions of the remaining stations: the failing station adds zero to every
day and the error field is not set. -/
theorem single_bad_station_does_not_abort :
    ∀ (env : SolisEnv) (d : ℕ) (m : String) (pre post : List Station)
      (st : Station) (e : String),
      env.stationList = Except.ok (pre ++ st :: post) →
      env.stationMonth st.id = Except.error e →
      Utils.fetchDataFromSolis env d m =
        FetchResult.ok ((Utils.accumulate env d (pre ++ post)).map round1)
          (round1 (Utils.accumulate env d (pre ++ post)).sum) m := by
  intro env d m pre post st e hs hf
  rw [fetch_ok env d m (pre ++ st :: post) hs,
    accumulate_middle_error env d pre post st e hf]

/-- Witness for C4: the month call of station 2 fails while station 1 answers
normally. -/
theorem single_bad_station_witness :
    (envOneBad.stationList = Except.ok ([⟨1⟩] ++ ⟨2⟩ :: []) ∧
      envOneBad.stationMonth 2 = Except.error ("HTTP 500: upstream error")) ∧
    Utils.fetchDataFromSolis envOneBad 3 ("mars") =
      FetchResult.ok ((Utils.accumulate envOneBad 3 ([⟨1⟩] ++ [])).map round1)
        (round1 (Utils.accumulate envOneBad 3 ([⟨1⟩] ++ [])).sum) "mars" :=
  ⟨⟨rfl, rfl⟩,
    single_bad_station_does_not_abort envOneBad 3 ("mars") [⟨1⟩] [] ⟨2⟩
      ("HTTP 500: upstream error") rfl rfl⟩

/-- C5: when the station-list call itself fails, the aggregation catches
the error and returns the object whose error field is the string Failed to
fetch data and which carries no totals fields at all. -/
theorem stationList_failure_yields_error_result :
    ∀ (env : SolisEnv) (d : ℕ) (m : String) (e : String),
      env.stationList = Except.error e →
      Utils.fetchDataFromSolis env d m = FetchResult.err ("Failed to fetch data") ∧
      (Utils.fetchDataFromSolis env d m).fieldNames = ["error"] := by
  intro env d m e h
  have h2 := fetch_err env d m e h
  exact ⟨h2, by rw [h2]; rfl⟩

/-- Witness for C5 at the concrete environment whose station-list call
fails with an HTTP 502. -/
theorem stationList_failure_witness :
    envListDown.stationList = Except.error ("HTTP 502: bad gateway") ∧
    (Utils.fetchDataFromSolis envListDown 31 ("maj") =
        FetchResult.err ("Failed to fetch data") ∧
      (Utils.fetchDataFromSolis envListDown 31 ("maj")).fieldNames = ["error"]) :=
  ⟨rfl, stationList_failure_yields_error_result envListDown 31 ("maj")
    ("HTTP 502: bad gateway") rfl⟩

/-- C6: for any day index whose entry is absent from a station response,
or present with a missing (or null) energy field, that station contributes
exactly zero at that index: the defaulted energy is 0 and the accumulator
entry is unchanged, while the aggregation step proceeds normally on the
other indices. -/
theorem missing_energy_contributes_zero :
    ∀ (dailyData : List DayRecord) (i : ℕ) (dayTotals : List ℚ),
      (dailyData[i]? = none ∨ ∃ r, dailyData[i]? = some r ∧ r.energy = none) →
      Utils.dayEnergy dailyData i = 0 ∧
      (Utils.stationStep dayTotals (Except.ok dailyData))[i]? = dayTotals[i]? := by
  intro dailyData i dayTotals h
  have hz : Utils.dayEnergy dailyData i = 0 := by
    rcases h with h | ⟨r, hr, he⟩
    · simp [Utils.dayEnergy, h]
    · simp [Utils.dayEnergy, hr, he]
  refine ⟨hz, ?_⟩
  rw [getElem?_stationStep]
  cases dayTotals[i]? with
  | none => rfl
  | some t =>
    show some (t + Utils.dayEnergy dailyData i) = some t
    rw [hz, add_zero]

/-- Witness for C6: a one-entry response queried at day index 3 (entry
absent), against a four-day accumulator. -/
theorem missing_energy_witness :
    ([DayRecord.mk (some 5)] : List DayRecord)[3]? = none ∧
    (Utils.dayEnergy [DayRecord.mk (some 5)] 3 = 0 ∧
      (Utils.stationStep [(10:ℚ), 20, 30, 40]
          (Except.ok [DayRecord.mk (some 5)]))[3]? = ([(10:ℚ), 20, 30, 40])[3]?) :=
  ⟨rfl, missing_energy_contributes_zero [DayRecord.mk (some 5)] 3 [10, 20, 30, 40]
    (Or.inl rfl)⟩

/-- C7 counterexample: at a concrete successful aggregation the returned
object is the success constructor, whose property set is exactly
dailyTotals, monthlyTotal and monthName; it has no error property at all,
contradicting the claim that every successful result carries all four
fields with error equal to null. -/
theorem success_object_lacks_error_field :
    (∃ dts mt, Utils.fetchDataFromSolis envTwoStations 3 ("mars") =
      FetchResult.ok dts mt ("mars")) ∧
    (Utils.fetchDataFromSolis envTwoStations 3 ("mars")).fieldNames =
      ["dailyTotals", "monthlyTotal", "monthName"] ∧
    "error" ∉ (Utils.fetchDataFromSolis envTwoStations 3 ("mars")).fieldNames := by
  have h := fetch_ok envTwoStations 3 ("mars") [⟨1⟩, ⟨2⟩] rfl
  refine ⟨⟨_, _, h⟩, by rw [h]; rfl, by rw [h]; decide⟩

/-- C7 amended: on every successful aggregation the result is the success
object carrying dailyTotals, monthlyTotal and the month name — exactly
those three properties, with no error property (so reading error gives
undefined, which the caller getStaticProps coerces to null). -/
theorem success_returns_three_field_object :
    ∀ (env : SolisEnv) (d : ℕ) (m : String) (stations : List Station),
      env.stationList = Except.ok stations →
      ∃ dts mt, Utils.fetchDataFromSolis env d m = FetchResult.ok dts mt m ∧
        (Utils.fetchDataFromSolis env d m).fieldNames =
          ["dailyTotals", "monthlyTotal", "monthName"] := by
  intro env d m s h
  have h2 := fetch_ok env d m s h
  exact ⟨_, _, h2, by rw [h2]; rfl⟩

/-- Witness for the amended C7 at the concrete two-station environment. -/
theorem success_returns_three_field_object_witness :
    envTwoStations.stationList = Except.ok [⟨1⟩, ⟨2⟩] ∧
    (∃ dts mt, Utils.fetchDataFromSolis envTwoStations 3 ("juni") =
        FetchResult.ok dts mt ("juni") ∧
      (Utils.fetchDataFromSolis envTwoStations 3 ("juni")).fieldNames =
        ["dailyTotals", "monthlyTotal", "monthName"]) :=
  ⟨rfl, success_returns_three_field_object envTwoStations 3 ("juni") [⟨1⟩, ⟨2⟩] rfl⟩

/-- C8: the response handling of the API client raises exactly when the
HTTP status lies outside the 2xx success range; the raised error message
carries the status code and the raw response body text, and on a success
status the parsed JSON body is returned unchanged. -/
theorem sendRequest_raises_iff_non2xx :
    ∀ (α : Type) (r : HttpResponse α),
      ((∃ msg, Utils.handleResponse r = Except.error msg) ↔
        ¬(200 ≤ r.status ∧ r.status ≤ 299)) ∧
      (¬(200 ≤ r.status ∧ r.status ≤ 299) →
        Utils.handleResponse r =
          Except.error ("HTTP " ++ Nat.repr r.status ++ ": " ++ r.bodyText)) ∧
      ((200 ≤ r.status ∧ r.status ≤ 299) →
        Utils.handleResponse r = Except.ok r.jsonBody) := by
  intro α r
  have hb : responseOk r.status = true ↔ (200 ≤ r.status ∧ r.status ≤ 299) := by
    simp [responseOk]
  by_cases h : 200 ≤ r.status ∧ r.status ≤ 299
  · have ht : responseOk r.status = true := hb.mpr h
    have hres : Utils.handleResponse r = Except.ok r.jsonBody := by
      rw [Utils.handleResponse, ht]
      rfl
    refine ⟨?_, fun hc => absurd h hc, fun _ => hres⟩
    constructor
    · rintro ⟨msg, hmsg⟩
      rw [hres] at hmsg
      exact absurd hmsg (by simp)
    · intro hc
      exact absurd h hc
  · have ht : responseOk r.status = false := by
      rcases Bool.eq_false_or_eq_true (responseOk r.status) with htr | hf
      · exact absurd (hb.mp htr) h
      · exact hf
    have hres : Utils.handleResponse r =
        Except.error ("HTTP " ++ Nat.repr r.status ++ ": " ++ r.bodyText) := by
      rw [Utils.handleResponse, ht]
      rfl
    exact ⟨⟨fun _ => h, fun _ => ⟨_, hres⟩⟩, fun _ => hres, fun hc => absurd hc h⟩

/-- Witness for C8: a 404 response raises with status and body in the
message, a 200 response returns its parsed body. -/
theorem sendRequest_raises_witness :
    (¬(200 ≤ 404 ∧ 404 ≤ 299) ∧ (200 ≤ 200 ∧ 200 ≤ 299)) ∧
    Utils.handleResponse (⟨404, ("Not Found"), (0:ℚ)⟩ : HttpResponse ℚ) =
      Except.error ("HTTP " ++ Nat.repr 404 ++ ": " ++ "Not Found") ∧
    Utils.handleResponse (⟨200, (""), (7:ℚ)⟩ : HttpResponse ℚ) = Except.ok 7 :=
  ⟨⟨by decide, by decide⟩,
    (sendRequest_raises_iff_non2xx ℚ ⟨404, ("Not Found"), 0⟩).2.1 (by decide),
    (sendRequest_raises_iff_non2xx ℚ ⟨200, (""), 7⟩).2.2 (by decide)⟩

/-- C9: with the per-station month responses fixed, the aggregation result
is invariant under any permutation of the station list: in exact rational
arithmetic the accumulated sum of each day, and hence the monthly total, does
not depend on the order in which the stations are processed. -/
theorem aggregation_invariant_under_station_permutation :
    ∀ (f : ℕ → Except String (List DayRecord)) (d : ℕ) (m : String)
      (s1 s2 : List Station), s1.Perm s2 →
      Utils.fetchDataFromSolis ⟨Except.ok s1, f⟩ d m =
        Utils.fetchDataFromSolis ⟨Except.ok s2, f⟩ d m := by
  intro f d m s1 s2 hp
  rw [fetch_ok ⟨Except.ok s1, f⟩ d m s1 rfl, fetch_ok ⟨Except.ok s2, f⟩ d m s2 rfl]
  have hacc : Utils.accumulate ⟨Except.ok s1, f⟩ d s1 =
      Utils.accumulate ⟨Except.ok s2, f⟩ d s2 :=
    accumulate_perm ⟨Except.ok s1, f⟩ d hp
  rw [hacc]

/-- Witness for C9: swapping the two stations of the concrete environment
leaves the result unchanged. -/
theorem aggregation_permutation_witness :
    ([⟨1⟩, ⟨2⟩] : List Station).Perm [⟨2⟩, ⟨1⟩] ∧
    Utils.fetchDataFromSolis ⟨Except.ok [⟨1⟩, ⟨2⟩], envTwoStations.stationMonth⟩ 3 ("mars") =
      Utils.fetchDataFromSolis ⟨Except.ok [⟨2⟩, ⟨1⟩], envTwoStations.stationMonth⟩ 3 ("mars") :=
  ⟨List.Perm.swap (Station.mk 2) (Station.mk 1) [],
    aggregation_invariant_under_station_permutation envTwoStations.stationMonth 3 ("mars")
      [⟨1⟩, ⟨2⟩] [⟨2⟩, ⟨1⟩] (List.Perm.swap (Station.mk 2) (Station.mk 1) [])⟩

/-- C10: the aggregation pipeline exists in two identical copies, one in
src/components/utils.js and one in src/pages/index.js, each with its own
signer, client and aggregator; for the same clock values (day count, month
name, date header), the same configuration (secret, key) and the same
sequence of API responses, every corresponding pair of functions returns
equal results. -/
theorem duplicate_pipeline_copies_agree :
    ∀ (env : SolisEnv) (d : ℕ) (m : String) (md5b64 : String → String)
      (hmacSha1b64 : String → String → String)
      (path body date secret key : String) (α : Type) (r : HttpResponse α),
      Utils.fetchDataFromSolis env d m = IndexPage.fetchData env d m ∧
      Utils.buildHeaders md5b64 hmacSha1b64 path body date secret key =
        IndexPage.buildHeaders md5b64 hmacSha1b64 path body date secret key ∧
      Utils.getSignature hmacSha1b64 (Utils.getContentMd5 md5b64 body) date path secret =
        IndexPage.getSignature hmacSha1b64 (IndexPage.getContentMd5 md5b64 body) date
          path secret ∧
      Utils.handleResponse r = IndexPage.handleResponse r := by
  intro env d m md5b64 hmacSha1b64 path body date secret key α r
  refine ⟨?_, rfl, rfl, rfl⟩
  rw [Utils.fetchDataFromSolis, IndexPage.fetchData]
  rfl
end Blastaden
